import Mathlib

/-!
Shallow embedding of `src/Deliverable2.py` (class `URLValidator`) from the
URL-Validation repository, together with theorems settling the spec claims.

External collaborators (the HTTP transport, the sentence-embedding similarity
model and the sentiment classifier) are modelled as oracle functions carried
by the `URLValidator` structure and a `net : String → HttpResult` parameter;
every piece of logic written in the repository itself is translated verbatim.
Python floats are modelled as exact rationals (`Rat`), Python `int(...)`
truncation as `pyInt` and Python 3 `round` (banker's rounding) as `pyRound`.
-/

namespace URLVal

/-- Python's `needle in haystack` test on lists of characters: does `needle`
occur at position 0? Helper for the substring check. -/
def strStarts : List Char → List Char → Bool
  | [], _ => true
  | _ :: _, [] => false
  | a :: as, b :: bs => a == b && strStarts as bs

/-- Occurrence of `needle` anywhere in the haystack (Python `in` on `str`). -/
def strHasSub (needle : List Char) : List Char → Bool
  | [] => strStarts needle []
  | h :: t => strStarts needle (h :: t) || strHasSub needle t

/-- Python `needle in hay` for strings. -/
def strHas (needle hay : String) : Bool := strHasSub needle.toList hay.toList

/-- The pervasive error test of `Deliverable2.py`: `"Error" in content`. -/
def hasError (content : String) : Bool := strHas "Error" content

/-- Python `int(x)` applied to a real number: truncation toward zero. -/
def pyInt (q : Rat) : Int := if 0 ≤ q then ⌊q⌋ else ⌈q⌉

/-- Python 3 `round(x)` to the nearest integer with ties going to the even
integer (banker's rounding). -/
def pyRound (q : Rat) : Int :=
  if q - (⌊q⌋ : Rat) < 1/2 then ⌊q⌋
  else if 1/2 < q - (⌊q⌋ : Rat) then ⌊q⌋ + 1
  else if ⌊q⌋ % 2 = 0 then ⌊q⌋ else ⌊q⌋ + 1

/-- Python `s * n` string repetition. -/
def strRepeat (s : String) : Nat → String
  | 0 => ""
  | n + 1 => s ++ strRepeat s n

/-- The star glyph repeated by `get_star_rating` to build the icon. -/
def starGlyph : String := "⭐"

/-- Outcome of the HTTP GET + HTML parse performed by `fetch_page_content`:
either the list of extracted paragraph texts, or one of the three caught
exception families (`requests.exceptions.Timeout`, `HTTPError` with a status
code, any other `RequestException` with a message). -/
inductive HttpResult where
  | ok (paragraphs : List String)
  | timeout
  | httpError (code : Nat)
  | requestError (msg : String)
  deriving DecidableEq, Repr

/-- The `URLValidator` object: the two external model capabilities it loads in
`__init__` (the fake-news classifier is loaded but never used by the core). -/
structure URLValidator where
  similarity : String → String → Rat
  sentimentLabel : String → String

/-- The `raw_score` sub-dictionary of a successful evaluation. -/
structure RawScores where
  domain_trust : Int
  similarity_score : Int
  fact_check_score : Int
  bias_score : Int
  final_score : Rat
  deriving DecidableEq, Repr

/-- Return value of `rate_url_validity`: either the
`{"Validation Error": content}` dictionary or the full result dictionary
(raw scores, the star icon, the explanation). -/
inductive EvaluationResult where
  | validationError (msg : String)
  | result (raw : RawScores) (icon : String) (explanation : String)
  deriving DecidableEq, Repr

/-- `URLValidator.fetch_page_content`: joins the paragraph texts with single
spaces; an empty extraction and each caught exception produce the
corresponding `"Error: ..."` string. -/
def fetch_page_content (r : HttpResult) : String :=
  match r with
  | .ok ps =>
      let content := " ".intercalate ps
      if content ≠ "" then content
      else "Error: No readable content found on the page."
  | .timeout => "Error: Request timed out."
  | .httpError code => "Error: HTTP " ++ toString code ++ " - Page may not exist."
  | .requestError msg => "Error: Unable to fetch URL (" ++ msg ++ ")."

/-- Whether the fetch failed, i.e. `fetch_page_content` takes one of its four
error branches (empty extraction or a caught exception). -/
def fetchFailed (r : HttpResult) : Bool :=
  match r with
  | .ok ps => " ".intercalate ps == ""
  | _ => true

/-- `URLValidator.get_domain_trust`: `0` on error content, else
`len(url) % 5 + 1`. -/
def get_domain_trust (url content : String) : Int :=
  if hasError content then 0
  else (url.length % 5 : Nat) + 1

/-- `URLValidator.compute_similarity_score`: `0` on error content, else
`int(cos_sim(encode(query), encode(content)) * 100)`. -/
def compute_similarity_score (v : URLValidator) (user_query content : String) : Int :=
  if hasError content then 0
  else pyInt (v.similarity user_query content * 100)

/-- `URLValidator.check_facts`: `0` on error content, else
`len(content) % 5 + 1`. -/
def check_facts (content : String) : Int :=
  if hasError content then 0
  else (content.length % 5 : Nat) + 1

/-- `URLValidator.detect_bias`: `0` on error content, else classify the first
512 characters and map `POSITIVE → 100`, `NEUTRAL → 50`, anything else
`→ 30`. -/
def detect_bias (v : URLValidator) (content : String) : Int :=
  if hasError content then 0
  else
    let label := v.sentimentLabel (String.mk (content.toList.take 512))
    if label == "POSITIVE" then 100
    else if label == "NEUTRAL" then 50
    else 30

/-- `URLValidator.get_star_rating`: `max(1, min(5, round(score / 20)))` stars
and the star glyph repeated that many times. -/
def get_star_rating (score : Rat) : Int × String :=
  (max 1 (min 5 (pyRound (score / 20))),
   strRepeat starGlyph (max 1 (min 5 (pyRound (score / 20)))).toNat)

/-- `URLValidator.generate_explanation`: one fixed sentence per sub-score
below 50, joined with spaces; the fixed "highly credible" sentence when no
sub-score is below 50. `final_score` is accepted but unused. -/
def generate_explanation (domain_trust similarity_score fact_check_score bias_score : Int)
    (final_score : Rat) : String :=
  let _ := final_score
  let reasons : List String :=
    (if domain_trust < 50 then ["The source has low domain authority."] else []) ++
    (if similarity_score < 50 then ["The content is not highly relevant to your query."] else []) ++
    (if fact_check_score < 50 then ["Limited fact-checking verification found."] else []) ++
    (if bias_score < 50 then ["Potential bias detected in the content."] else [])
  if reasons.isEmpty then "This source is highly credible and relevant."
  else " ".intercalate reasons

/-- `URLValidator.rate_url_validity`: fetch, short-circuit on error content,
otherwise compute the four sub-scores, the weighted final score
`0.3·dt + 0.3·rel + 0.2·fc + 0.2·bias`, the star rating and the
explanation. `net` models the network: what the HTTP GET of a URL yields. -/
def rate_url_validity (v : URLValidator) (net : String → HttpResult)
    (user_query url : String) : EvaluationResult :=
  let content := fetch_page_content (net url)
  if hasError content then .validationError content
  else
    let domain_trust := get_domain_trust url content
    let similarity_score := compute_similarity_score v user_query content
    let fact_check_score := check_facts content
    let bias_score := detect_bias v content
    let final_score : Rat :=
      (3/10 : Rat) * domain_trust + (3/10 : Rat) * similarity_score +
      (1/5 : Rat) * fact_check_score + (1/5 : Rat) * bias_score
    let sr := get_star_rating final_score
    let explanation :=
      generate_explanation domain_trust similarity_score fact_check_score bias_score final_score
    .result ⟨domain_trust, similarity_score, fact_check_score, bias_score, final_score⟩
      sr.2 explanation

theorem strStarts_self_append (l m : List Char) : strStarts l (l ++ m) = true := by
  induction l with
  | nil => rfl
  | cons a as ih => simp [strStarts, ih]

theorem strStarts_append_right {n l : List Char} (m : List Char)
    (h : strStarts n l = true) : strStarts n (l ++ m) = true := by
  induction n generalizing l with
  | nil => rfl
  | cons a as ih =>
    cases l with
    | nil => exact absurd h (by simp [strStarts])
    | cons b bs =>
      simp only [strStarts, Bool.and_eq_true, beq_iff_eq] at h
      simp only [List.cons_append, strStarts, Bool.and_eq_true, beq_iff_eq]
      exact ⟨h.1, ih h.2⟩

theorem strHasSub_of_starts {n h : List Char} (hs : strStarts n h = true) :
    strHasSub n h = true := by
  cases h with
  | nil => simpa [strHasSub] using hs
  | cons a t => simp [strHasSub, hs]

theorem toList_append (s t : String) : (s ++ t).toList = s.toList ++ t.toList :=
  String.data_append s t

theorem hasError_append_of_starts (s t : String)
    (h : strStarts "Error".toList s.toList = true) : hasError (s ++ t) = true := by
  apply strHasSub_of_starts
  rw [toList_append]
  exact strStarts_append_right _ h

theorem hasError_of_fetchFailed (r : HttpResult) (h : fetchFailed r = true) :
    hasError (fetch_page_content r) = true := by
  cases r with
  | ok ps =>
    simp only [fetchFailed, beq_iff_eq] at h
    simp only [fetch_page_content, h]
    decide
  | timeout => decide
  | httpError code =>
    show hasError ("Error: HTTP " ++ toString code ++ " - Page may not exist.") = true
    apply hasError_append_of_starts
    rw [toList_append]
    exact strStarts_append_right _ (by decide)
  | requestError msg =>
    show hasError ("Error: Unable to fetch URL (" ++ msg ++ ").") = true
    apply hasError_append_of_starts
    rw [toList_append]
    exact strStarts_append_right _ (by decide)

/-- C1: if the fetch of the URL fails (empty extraction or any caught
exception), `rate_url_validity` short-circuits and returns exactly the
validation-error variant carrying the fetch error message; in the definition
of `rate_url_validity` the taken branch computes none of the four sub-scores,
the final score, the star rating, or the explanation. -/
theorem rate_url_validity_fetch_error (v : URLValidator) (net : String → HttpResult)
    (user_query url : String) (h : fetchFailed (net url) = true) :
    rate_url_validity v net user_query url =
      .validationError (fetch_page_content (net url)) := by
  have he := hasError_of_fetchFailed (net url) h
  simp [rate_url_validity, he]

/-- Witness for C1 at a concrete input: a timed-out fetch. -/
theorem rate_url_validity_fetch_error_witness :
    fetchFailed ((fun _ => HttpResult.timeout) "http://x.test") = true ∧
    rate_url_validity ⟨fun _ _ => 0, fun _ => "NEUTRAL"⟩ (fun _ => HttpResult.timeout)
        "any query" "http://x.test" =
      .validationError "Error: Request timed out." :=
  ⟨by decide,
   rate_url_validity_fetch_error ⟨fun _ _ => 0, fun _ => "NEUTRAL"⟩
     (fun _ => HttpResult.timeout) "any query" "http://x.test" (by decide)⟩

/-- C7: when the page yields no paragraph text (the joined extraction is the
empty string), `rate_url_validity` returns exactly the validation-error
variant with the fixed "no readable content" message. -/
theorem rate_url_validity_empty_content (v : URLValidator) (net : String → HttpResult)
    (user_query url : String) (ps : List String) (hnet : net url = .ok ps)
    (hempty : " ".intercalate ps = "") :
    rate_url_validity v net user_query url =
      .validationError "Error: No readable content found on the page." := by
  have hf : fetch_page_content (net url) =
      "Error: No readable content found on the page." := by
    rw [hnet]; simp [fetch_page_content, hempty]
  have he : hasError "Error: No readable content found on the page." = true := by decide
  simp [rate_url_validity, hf, he]

/-- Witness for C7: a page with no paragraph elements. -/
theorem rate_url_validity_empty_content_witness :
    rate_url_validity ⟨fun _ _ => 0, fun _ => "NEUTRAL"⟩ (fun _ => HttpResult.ok [])
        "any query" "http://x.test" =
      .validationError "Error: No readable content found on the page." :=
  rate_url_validity_empty_content ⟨fun _ _ => 0, fun _ => "NEUTRAL"⟩
    (fun _ => HttpResult.ok []) "any query" "http://x.test" [] rfl rfl

/-- C8: the error test is a bare substring check. Any successfully extracted
page text that merely contains the substring "Error" makes all four
sub-score evaluators return 0 and makes `rate_url_validity` return the
validation-error variant carrying that page text. -/
theorem error_substring_short_circuit (v : URLValidator) (net : String → HttpResult)
    (user_query url : String) (ps : List String) (hnet : net url = .ok ps)
    (herr : hasError (" ".intercalate ps) = true) :
    get_domain_trust url (" ".intercalate ps) = 0 ∧
    compute_similarity_score v user_query (" ".intercalate ps) = 0 ∧
    check_facts (" ".intercalate ps) = 0 ∧
    detect_bias v (" ".intercalate ps) = 0 ∧
    rate_url_validity v net user_query url =
      .validationError (" ".intercalate ps) := by
  have hne : " ".intercalate ps ≠ "" := by
    intro h
    rw [h] at herr
    exact absurd herr (by decide)
  have hf : fetch_page_content (net url) = " ".intercalate ps := by
    rw [hnet]; simp [fetch_page_content, hne]
  exact ⟨by simp [get_domain_trust, herr],
         by simp [compute_similarity_score, herr],
         by simp [check_facts, herr],
         by simp [detect_bias, herr],
         by simp [rate_url_validity, hf, herr]⟩

/-- Witness for C8: legitimate page text that merely mentions the word
"Error" is treated as a fetch failure. -/
theorem error_substring_short_circuit_witness :
    hasError (" ".intercalate ["The 1901 ledger Error was noted by historians."]) = true ∧
    rate_url_validity ⟨fun _ _ => 1, fun _ => "NEUTRAL"⟩
        (fun _ => HttpResult.ok ["The 1901 ledger Error was noted by historians."])
        "ledger history" "http://x.test" =
      .validationError "The 1901 ledger Error was noted by historians." :=
  ⟨by decide,
   (error_substring_short_circuit ⟨fun _ _ => 1, fun _ => "NEUTRAL"⟩
     (fun _ => HttpResult.ok ["The 1901 ledger Error was noted by historians."])
     "ledger history" "http://x.test"
     ["The 1901 ledger Error was noted by historians."] rfl (by decide)).2.2.2.2⟩

theorem le_pyRound (q : Rat) : ⌊q⌋ ≤ pyRound q := by
  unfold pyRound
  split_ifs <;> omega

theorem pyRound_le (q : Rat) : pyRound q ≤ ⌊q⌋ + 1 := by
  unfold pyRound
  split_ifs <;> omega

theorem pyRound_mono {x y : Rat} (h : x ≤ y) : pyRound x ≤ pyRound y := by
  rcases lt_or_eq_of_le (Int.floor_mono h) with hf | hf
  · calc pyRound x ≤ ⌊x⌋ + 1 := pyRound_le x
      _ ≤ ⌊y⌋ := by omega
      _ ≤ pyRound y := le_pyRound y
  · have hfr : x - (⌊x⌋ : Rat) ≤ y - (⌊x⌋ : Rat) := by linarith
    unfold pyRound
    rw [← hf]
    split_ifs <;> first | omega | linarith

theorem pyInt_le {q : Rat} {n : Int} (h : q ≤ (n : Rat)) : pyInt q ≤ n := by
  unfold pyInt
  split_ifs
  · calc ⌊q⌋ ≤ ⌊(n : Rat)⌋ := Int.floor_mono h
      _ = n := Int.floor_intCast n
  · exact Int.ceil_le.mpr h

theorem pyInt_nonneg {q : Rat} (h : 0 ≤ q) : 0 ≤ pyInt q := by
  unfold pyInt
  rw [if_pos h]
  exact Int.le_floor.mpr (by exact_mod_cast h)

/-- C3: `get_star_rating` computes `clamp(round(score/20), 1, 5)` stars (with
Python 3 rounding) and the star glyph repeated that many times; it is
monotonic non-decreasing in the score, maps score 0 to 1 star and score 100
to 5 stars. -/
theorem get_star_rating_spec :
    (∀ s : Rat, get_star_rating s =
      (max 1 (min 5 (pyRound (s / 20))),
       strRepeat starGlyph (max 1 (min 5 (pyRound (s / 20)))).toNat)) ∧
    (∀ s t : Rat, s ≤ t → (get_star_rating s).1 ≤ (get_star_rating t).1) ∧
    (get_star_rating 0).1 = 1 ∧
    (get_star_rating 100).1 = 5 := by
  refine ⟨fun s => rfl, fun s t hst => ?_, ?_, ?_⟩
  · have hdiv : s / 20 ≤ t / 20 :=
      (div_le_div_iff_of_pos_right (by norm_num : (0 : Rat) < 20)).mpr hst
    have hr := pyRound_mono hdiv
    exact max_le_max (le_refl 1) (min_le_min (le_refl 5) hr)
  · norm_num [get_star_rating, pyRound]
  · norm_num [get_star_rating, pyRound]

/-- Witness for C3's monotonicity at concrete scores 0 and 100. -/
theorem get_star_rating_spec_witness :
    (get_star_rating 0).1 ≤ (get_star_rating 100).1 :=
  get_star_rating_spec.2.1 0 100 (by norm_num)

/-- C5: `detect_bias` returns 0 on error content; on non-error content it
depends only on the classifier's label for the first 512 characters, mapping
POSITIVE to 100, NEUTRAL to 50 and any other label to 30, so the result is
always in {30, 50, 100}. -/
theorem detect_bias_contract (v : URLValidator) (c c2 e : String)
    (hc : hasError c = false) (hc2 : hasError c2 = false)
    (hpre : c.toList.take 512 = c2.toList.take 512)
    (he : hasError e = true) :
    detect_bias v e = 0 ∧
    detect_bias v c = detect_bias v c2 ∧
    (v.sentimentLabel (String.mk (c.toList.take 512)) = "POSITIVE" →
      detect_bias v c = 100) ∧
    (v.sentimentLabel (String.mk (c.toList.take 512)) = "NEUTRAL" →
      detect_bias v c = 50) ∧
    (v.sentimentLabel (String.mk (c.toList.take 512)) ≠ "POSITIVE" →
      v.sentimentLabel (String.mk (c.toList.take 512)) ≠ "NEUTRAL" →
      detect_bias v c = 30) ∧
    (detect_bias v c = 30 ∨ detect_bias v c = 50 ∨ detect_bias v c = 100) := by
  have key : ∀ s : String, hasError s = false → detect_bias v s =
      (if v.sentimentLabel (String.mk (s.toList.take 512)) = "POSITIVE" then 100
       else if v.sentimentLabel (String.mk (s.toList.take 512)) = "NEUTRAL" then 50
       else 30) := by
    intro s hs
    unfold detect_bias
    rw [hs]
    simp [beq_iff_eq]
  have herr0 : detect_bias v e = 0 := by
    unfold detect_bias
    rw [he]
    rfl
  refine ⟨herr0, ?_, ?_, ?_, ?_, ?_⟩
  · rw [key c hc, key c2 hc2, hpre]
  · intro hl; rw [key c hc, if_pos hl]
  · intro hl
    rw [key c hc, if_neg ?_, if_pos hl]
    rw [hl]; decide
  · intro hp hn; rw [key c hc, if_neg hp, if_neg hn]
  · rw [key c hc]
    split_ifs <;> simp

/-- Witness for C5 with a POSITIVE classifier on concrete content. -/
theorem detect_bias_contract_witness :
    detect_bias ⟨fun _ _ => 0, fun _ => "POSITIVE"⟩ "Error content" = 0 ∧
    detect_bias ⟨fun _ _ => 0, fun _ => "POSITIVE"⟩ "good news" = 100 :=
  ⟨(detect_bias_contract ⟨fun _ _ => 0, fun _ => "POSITIVE"⟩ "good news" "good news"
      "Error content" (by decide) (by decide) rfl (by decide)).1,
   (detect_bias_contract ⟨fun _ _ => 0, fun _ => "POSITIVE"⟩ "good news" "good news"
      "Error content" (by decide) (by decide) rfl (by decide)).2.2.1 rfl⟩

/-- C6 counterexample: a similarity capability may return a value in the
documented range [-1, 1] that is negative, and then
`compute_similarity_score` returns a negative integer, outside [0, 100]:
with similarity -1 on non-error content the score is -100. -/
theorem compute_similarity_score_negative :
    (-1 : Rat) ≤ (fun (_ _ : String) => (-1 : Rat)) "query" "hello world" ∧
    (fun (_ _ : String) => (-1 : Rat)) "query" "hello world" ≤ 1 ∧
    compute_similarity_score ⟨fun _ _ => -1, fun _ => "NEUTRAL"⟩
      "query" "hello world" = -100 ∧
    ¬ (0 ≤ compute_similarity_score ⟨fun _ _ => -1, fun _ => "NEUTRAL"⟩
      "query" "hello world") := by
  have hc : hasError "hello world" = false := by decide
  have hval : compute_similarity_score ⟨fun _ _ => -1, fun _ => "NEUTRAL"⟩
      "query" "hello world" = -100 := by
    simp only [compute_similarity_score, hc]
    norm_num [pyInt]
    rw [show (-100 : Rat) = ((-100 : Int) : Rat) from by norm_num]
    exact Int.ceil_intCast _
  refine ⟨by norm_num, by norm_num, hval, ?_⟩
  rw [hval]
  norm_num

/-- C6 amended: on error content `compute_similarity_score` returns 0; on
non-error content it returns an integer in [0, 100] provided the similarity
value lies in [0, 1] (the claim's wider range [-1, 1] allows negative
results, see the counterexample). -/
theorem compute_similarity_score_bounds (v : URLValidator) (q c e : String)
    (hc : hasError c = false) (h0 : 0 ≤ v.similarity q c)
    (h1 : v.similarity q c ≤ 1) (he : hasError e = true) :
    compute_similarity_score v q e = 0 ∧
    0 ≤ compute_similarity_score v q c ∧
    compute_similarity_score v q c ≤ 100 := by
  refine ⟨by simp [compute_similarity_score, he], ?_, ?_⟩
  · simp only [compute_similarity_score, hc]
    norm_num
    exact pyInt_nonneg (by positivity)
  · simp only [compute_similarity_score, hc]
    norm_num
    exact pyInt_le (by push_cast; linarith)

/-- Witness for C6's amended bounds with similarity 1. -/
theorem compute_similarity_score_bounds_witness :
    compute_similarity_score ⟨fun _ _ => 1, fun _ => "NEUTRAL"⟩ "query" "Error page" = 0 ∧
    0 ≤ compute_similarity_score ⟨fun _ _ => 1, fun _ => "NEUTRAL"⟩ "query" "hello world" ∧
    compute_similarity_score ⟨fun _ _ => 1, fun _ => "NEUTRAL"⟩ "query" "hello world" ≤ 100 :=
  compute_similarity_score_bounds ⟨fun _ _ => 1, fun _ => "NEUTRAL"⟩ "query"
    "hello world" "Error page" (by decide) zero_le_one (le_refl 1) (by decide)

/-- C4: `generate_explanation` returns the fixed "highly credible" sentence
iff all four sub-scores are at least 50; otherwise it returns exactly the
space-joined concatenation, in the fixed order domain trust, relevance,
fact-check, bias, of the fixed deficiency sentences for the sub-scores below
50; the final-score parameter has no effect on the output. -/
theorem generate_explanation_spec (dt rel fc bias : Int) (fs fs2 : Rat) :
    generate_explanation dt rel fc bias fs = generate_explanation dt rel fc bias fs2 ∧
    (generate_explanation dt rel fc bias fs = "This source is highly credible and relevant."
      ↔ (50 ≤ dt ∧ 50 ≤ rel ∧ 50 ≤ fc ∧ 50 ≤ bias)) ∧
    (¬ (50 ≤ dt ∧ 50 ≤ rel ∧ 50 ≤ fc ∧ 50 ≤ bias) →
      generate_explanation dt rel fc bias fs =
        " ".intercalate
          ((if dt < 50 then ["The source has low domain authority."] else []) ++
           (if rel < 50 then ["The content is not highly relevant to your query."] else []) ++
           (if fc < 50 then ["Limited fact-checking verification found."] else []) ++
           (if bias < 50 then ["Potential bias detected in the content."] else []))) := by
  refine ⟨rfl, ?_, ?_⟩ <;>
    unfold generate_explanation <;>
    by_cases h1 : dt < 50 <;> by_cases h2 : rel < 50 <;> by_cases h3 : fc < 50 <;>
    by_cases h4 : bias < 50 <;>
    simp [h1, h2, h3, h4] <;>
    first
      | omega
      | rfl
      | exact fun hno => absurd ⟨not_lt.mp h1, not_lt.mp h2, not_lt.mp h3, not_lt.mp h4⟩ hno
      | refine ⟨fun heq => absurd heq (by decide), fun hall => absurd hall (by omega)⟩

/-- Witness for C4 at concrete sub-scores 10, 60, 10, 60 (final scores 7
and 9 both produce the same two-sentence output). -/
theorem generate_explanation_spec_witness :
    generate_explanation 10 60 10 60 7 =
      "The source has low domain authority. Limited fact-checking verification found." :=
  (generate_explanation_spec 10 60 10 60 7 9).2.2 (by decide)

/-- C2 counterexample: a complete concrete evaluation. The page text is
"hello world" (length 11), the URL is "u" (length 1), similarity is 1/2 and
the sentiment label NEUTRAL, so the sub-scores are domain trust 2, relevance
50, fact-check 2, bias 50. The code's final score is
0.3·2 + 0.3·50 + 0.2·2 + 0.2·50 = 26: the 1-to-5-scale sub-scores enter the
weighted sum raw, not rescaled by 20 as the claim states (which would give
0.3·40 + 0.3·50 + 0.2·40 + 0.2·50 = 45 ≠ 26). -/
theorem final_score_not_rescaled :
    rate_url_validity ⟨fun _ _ => 1/2, fun _ => "NEUTRAL"⟩
        (fun _ => HttpResult.ok ["hello world"]) "some query" "u" =
      .result ⟨2, 50, 2, 50, 26⟩ (strRepeat starGlyph 1)
        "The source has low domain authority. Limited fact-checking verification found." ∧
    (26 : Rat) ≠
      (3/10 : Rat) * (20 * 2) + (3/10 : Rat) * 50 + (1/5 : Rat) * (20 * 2) + (1/5 : Rat) * 50 := by
  constructor
  · have hcontent : fetch_page_content (HttpResult.ok ["hello world"]) = "hello world" := by
      decide
    have herrF : hasError "hello world" = false := by decide
    have hdt : get_domain_trust "u" "hello world" = 2 := by decide
    have hsim : compute_similarity_score ⟨fun _ _ => 1/2, fun _ => "NEUTRAL"⟩
        "some query" "hello world" = 50 := by
      simp only [compute_similarity_score, herrF]
      norm_num [pyInt]
    have hfc : check_facts "hello world" = 2 := by decide
    have hbias : detect_bias ⟨fun _ _ => 1/2, fun _ => "NEUTRAL"⟩ "hello world" = 50 := by
      decide
    have hstar : get_star_rating 26 = (1, strRepeat starGlyph 1) := by
      norm_num [get_star_rating, pyRound]
    have hexp : generate_explanation 2 50 2 50 26 =
        "The source has low domain authority. Limited fact-checking verification found." := by
      decide
    simp only [rate_url_validity, hcontent, herrF, Bool.false_eq_true, if_false,
      hdt, hsim, hfc, hbias]
    norm_num
    rw [hstar, hexp]
    exact ⟨rfl, rfl⟩
  · norm_num

/-- C2 amended: on every successful evaluation the final score is the
weighted sum 0.3·domainTrust + 0.3·relevance + 0.2·factCheck + 0.2·bias of
the four sub-scores exactly as produced (domain trust and fact-check on
their raw 1-to-5 scale, with no ×20 rescaling). -/
theorem rate_url_validity_weighted_sum (v : URLValidator) (net : String → HttpResult)
    (user_query url : String)
    (h : hasError (fetch_page_content (net url)) = false) :
    ∃ raw icon expl, rate_url_validity v net user_query url = .result raw icon expl ∧
      raw.final_score =
        (3/10 : Rat) * raw.domain_trust + (3/10 : Rat) * raw.similarity_score +
        (1/5 : Rat) * raw.fact_check_score + (1/5 : Rat) * raw.bias_score ∧
      raw.domain_trust = get_domain_trust url (fetch_page_content (net url)) ∧
      raw.similarity_score = compute_similarity_score v user_query (fetch_page_content (net url)) ∧
      raw.fact_check_score = check_facts (fetch_page_content (net url)) ∧
      raw.bias_score = detect_bias v (fetch_page_content (net url)) := by
  simp only [rate_url_validity, h, Bool.false_eq_true, if_false]
  exact ⟨_, _, _, rfl, rfl, rfl, rfl, rfl, rfl⟩

/-- Witness for C2's amended weighted-sum theorem at a concrete input. -/
theorem rate_url_validity_weighted_sum_witness :
    ∃ raw icon expl,
      rate_url_validity ⟨fun _ _ => 1, fun _ => "POSITIVE"⟩
          (fun _ => HttpResult.ok ["a b c"]) "query" "http://x.test" =
        .result raw icon expl ∧
      raw.final_score =
        (3/10 : Rat) * raw.domain_trust + (3/10 : Rat) * raw.similarity_score +
        (1/5 : Rat) * raw.fact_check_score + (1/5 : Rat) * raw.bias_score ∧
      raw.domain_trust = get_domain_trust "http://x.test" (fetch_page_content (HttpResult.ok ["a b c"])) ∧
      raw.similarity_score = compute_similarity_score ⟨fun _ _ => 1, fun _ => "POSITIVE"⟩ "query"
        (fetch_page_content (HttpResult.ok ["a b c"])) ∧
      raw.fact_check_score = check_facts (fetch_page_content (HttpResult.ok ["a b c"])) ∧
      raw.bias_score = detect_bias ⟨fun _ _ => 1, fun _ => "POSITIVE"⟩
        (fetch_page_content (HttpResult.ok ["a b c"])) :=
  rate_url_validity_weighted_sum ⟨fun _ _ => 1, fun _ => "POSITIVE"⟩
    (fun _ => HttpResult.ok ["a b c"]) "query" "http://x.test" (by decide)

theorem generate_explanation_flags (dt rel fc bias : Int) (fs : Rat)
    (hdt : dt < 50) (hfc : fc < 50) :
    strHas "The source has low domain authority."
      (generate_explanation dt rel fc bias fs) = true ∧
    strHas "Limited fact-checking verification found."
      (generate_explanation dt rel fc bias fs) = true ∧
    generate_explanation dt rel fc bias fs ≠
      "This source is highly credible and relevant." := by
  unfold generate_explanation
  by_cases h2 : rel < 50 <;> by_cases h4 : bias < 50 <;>
    simp [hdt, hfc, h2, h4] <;> decide

theorem get_star_rating_le_three {x : Rat} (hx : x ≤ 105/2) :
    (get_star_rating x).1 ≤ 3 := by
  show max 1 (min 5 (pyRound (x / 20))) ≤ 3
  have hfl : ⌊x / 20⌋ < 3 := Int.floor_lt.mpr (by push_cast; linarith)
  have hpr := pyRound_le (x / 20)
  exact max_le (by norm_num) (le_trans (min_le_right 5 _) (by omega))

/-- C9: on any successful evaluation in which the similarity value is at most
1, the final validity score is at most 52.5 = 0.3·5 + 0.3·100 + 0.2·5 +
0.2·100, and therefore the star rating of the returned result never exceeds
3 stars (the icon repeats the glyph at most 3 times). -/
theorem rate_url_validity_cap (v : URLValidator) (net : String → HttpResult)
    (user_query url : String)
    (h : hasError (fetch_page_content (net url)) = false)
    (hsim : v.similarity user_query (fetch_page_content (net url)) ≤ 1) :
    ∃ raw icon expl, rate_url_validity v net user_query url = .result raw icon expl ∧
      raw.final_score ≤ 105/2 ∧
      (get_star_rating raw.final_score).1 ≤ 3 ∧
      icon = strRepeat starGlyph (get_star_rating raw.final_score).1.toNat := by
  have hdt : get_domain_trust url (fetch_page_content (net url)) ≤ 5 := by
    simp only [get_domain_trust, h, Bool.false_eq_true, if_false]
    omega
  have hrel : compute_similarity_score v user_query (fetch_page_content (net url)) ≤ 100 := by
    simp only [compute_similarity_score, h, Bool.false_eq_true, if_false]
    apply pyInt_le
    push_cast
    linarith
  have hfc : check_facts (fetch_page_content (net url)) ≤ 5 := by
    simp only [check_facts, h, Bool.false_eq_true, if_false]
    omega
  have hbias : detect_bias v (fetch_page_content (net url)) ≤ 100 := by
    simp only [detect_bias]
    split_ifs <;> omega
  have hfin : (3/10 : Rat) * (get_domain_trust url (fetch_page_content (net url))) +
      (3/10 : Rat) * (compute_similarity_score v user_query (fetch_page_content (net url))) +
      (1/5 : Rat) * (check_facts (fetch_page_content (net url))) +
      (1/5 : Rat) * (detect_bias v (fetch_page_content (net url))) ≤ 105/2 := by
    have c1 : ((get_domain_trust url (fetch_page_content (net url)) : Int) : Rat) ≤ 5 := by
      exact_mod_cast hdt
    have c2 : ((compute_similarity_score v user_query (fetch_page_content (net url)) : Int) : Rat) ≤ 100 := by
      exact_mod_cast hrel
    have c3 : ((check_facts (fetch_page_content (net url)) : Int) : Rat) ≤ 5 := by
      exact_mod_cast hfc
    have c4 : ((detect_bias v (fetch_page_content (net url)) : Int) : Rat) ≤ 100 := by
      exact_mod_cast hbias
    linarith
  simp only [rate_url_validity, h, Bool.false_eq_true, if_false]
  exact ⟨_, _, _, rfl, hfin, get_star_rating_le_three hfin, rfl⟩

/-- Witness for C9 at a concrete successful evaluation with similarity 1. -/
theorem rate_url_validity_cap_witness :
    ∃ raw icon expl,
      rate_url_validity ⟨fun _ _ => 1, fun _ => "POSITIVE"⟩
          (fun _ => HttpResult.ok ["hello world"]) "query" "http://x.test" =
        .result raw icon expl ∧
      raw.final_score ≤ 105/2 ∧
      (get_star_rating raw.final_score).1 ≤ 3 ∧
      icon = strRepeat starGlyph (get_star_rating raw.final_score).1.toNat :=
  rate_url_validity_cap ⟨fun _ _ => 1, fun _ => "POSITIVE"⟩
    (fun _ => HttpResult.ok ["hello world"]) "query" "http://x.test"
    (by decide) (le_refl 1)

/-- C10: on every successful evaluation the explanation contains the
low-domain-authority sentence and the limited-fact-checking sentence, and is
never the "highly credible" sentence, because the placeholder domain-trust
and fact-check sub-scores lie in [1, 5] and are always below 50. -/
theorem rate_url_validity_explanation_flags (v : URLValidator)
    (net : String → HttpResult) (user_query url : String)
    (h : hasError (fetch_page_content (net url)) = false) :
    ∃ raw icon expl, rate_url_validity v net user_query url = .result raw icon expl ∧
      strHas "The source has low domain authority." expl = true ∧
      strHas "Limited fact-checking verification found." expl = true ∧
      expl ≠ "This source is highly credible and relevant." := by
  have hdt : get_domain_trust url (fetch_page_content (net url)) < 50 := by
    simp only [get_domain_trust, h, Bool.false_eq_true, if_false]
    omega
  have hfc : check_facts (fetch_page_content (net url)) < 50 := by
    simp only [check_facts, h, Bool.false_eq_true, if_false]
    omega
  have hflags := generate_explanation_flags
    (get_domain_trust url (fetch_page_content (net url)))
    (compute_similarity_score v user_query (fetch_page_content (net url)))
    (check_facts (fetch_page_content (net url)))
    (detect_bias v (fetch_page_content (net url)))
    ((3/10 : Rat) * (get_domain_trust url (fetch_page_content (net url))) +
      (3/10 : Rat) * (compute_similarity_score v user_query (fetch_page_content (net url))) +
      (1/5 : Rat) * (check_facts (fetch_page_content (net url))) +
      (1/5 : Rat) * (detect_bias v (fetch_page_content (net url))))
    hdt hfc
  simp only [rate_url_validity, h, Bool.false_eq_true, if_false]
  exact ⟨_, _, _, rfl, hflags.1, hflags.2.1, hflags.2.2⟩

/-- Witness for C10 at a concrete successful evaluation. -/
theorem rate_url_validity_explanation_flags_witness :
    ∃ raw icon expl,
      rate_url_validity ⟨fun _ _ => 1, fun _ => "POSITIVE"⟩
          (fun _ => HttpResult.ok ["good words here"]) "query" "http://y.test" =
        .result raw icon expl ∧
      strHas "The source has low domain authority." expl = true ∧
      strHas "Limited fact-checking verification found." expl = true ∧
      expl ≠ "This source is highly credible and relevant." :=
  rate_url_validity_explanation_flags ⟨fun _ _ => 1, fun _ => "POSITIVE"⟩
    (fun _ => HttpResult.ok ["good words here"]) "query" "http://y.test" (by decide)

end URLVal
